import Mathlib

/-
Verification of the entity-exposure filter of the openai_conversation
integration, embedded from the function _custom_get_exposed_entities in
src/openai_conversation/__init__.py.

The filter walks a snapshot of entity states, keeps those accepted by the
exposure predicate, assembles an info record per entity (names, domain,
state, optional areas, optional filtered attributes) and routes it into a
"script" bucket, a "calendar" bucket, or a catch-all "entities" mapping.
Python attribute values are modelled by a tagged union; a Python bool is a
subclass of int, so isinstance checks on int accept bools.  Python floats
are modelled by their exact rational value, and the Python round builtin
by round-half-to-even on rationals.
-/

namespace ExposureFilter

/-- Tagged union of the Python attribute values the filter distinguishes:
str, int, bool, float (modelled by its exact rational value), Enum and
Decimal (each carried as its canonical str() rendering). -/
inductive AttrValue where
  | str (s : String)
  | int (n : Int)
  | bool (b : Bool)
  | float (q : ℚ)
  | enum (s : String)
  | decimal (s : String)
deriving DecidableEq

/-- One entry of hass.states.async_all(): identifier, domain, display
name, state string and the attribute dictionary (a key-value list). -/
structure EntityState where
  entity_id : String
  domain : String
  name : String
  state : String
  attributes : List (String × AttrValue)
deriving DecidableEq

/-- The slice of an entity-registry entry the filter reads: aliases and
the optional area / device identifiers. -/
structure EntityEntry where
  aliases : List String
  area_id : Option String
  device_id : Option String
deriving DecidableEq

/-- The slice of an area-registry record the filter reads. -/
structure Area where
  name : String
  aliases : List String
deriving DecidableEq

/-- The slice of a device-registry record the filter reads. -/
structure Device where
  area_id : Option String
deriving DecidableEq

/-- The interesting_attributes allow-list from the source. -/
def interesting_attributes : List String :=
  ["temperature", "current_temperature", "temperature_unit", "brightness",
   "humidity", "unit_of_measurement", "device_class", "current_position",
   "percentage", "volume_level", "media_title", "media_artist",
   "media_album_name"]

/-- The Python round builtin on an exact rational: nearest integer, ties
going to the even neighbour (round-half-to-even). -/
def roundHalfEven (q : ℚ) : Int :=
  let f := Rat.floor q
  if q - f < 1 / 2 then f
  else if q - f > 1 / 2 then f + 1
  else if f % 2 = 0 then f else f + 1

/-- isinstance(v, (int, float)) in Python, where a bool is an int. -/
def isNumeric : AttrValue → Bool
  | .int _ => true
  | .bool _ => true
  | .float _ => true
  | _ => false

/-- isinstance(v, (Enum, Decimal, int)) in Python, where a bool is an
int and a Decimal is neither an int nor a float. -/
def isEnumDecimalInt : AttrValue → Bool
  | .enum _ => true
  | .decimal _ => true
  | .int _ => true
  | .bool _ => true
  | _ => false

/-- Exact rational value of a numeric attribute (int, bool or float). -/
def toRat : AttrValue → ℚ
  | .int n => (n : ℚ)
  | .bool b => if b then 1 else 0
  | .float q => q
  | _ => 0

/-- str() on the values that can reach the stringification branch. -/
def pyStr : AttrValue → String
  | .str s => s
  | .int n => toString n
  | .bool b => if b then "True" else "False"
  | .float _ => ""
  | .enum s => s
  | .decimal s => s

/-- Body of the attribute loop: given an attribute name and value, the
value stored in the output attribute dictionary, or none when the
attribute is dropped.  Mirrors lines 129-137 of the source: allow-list
check, then the numeric-brightness rescale round((v / 255.0) * 100),
then str() for Enum / Decimal / int, else the value unchanged. -/
def filterAttr (attr_name : String) (attr_value : AttrValue) : Option AttrValue :=
  if attr_name ∈ interesting_attributes then
    if attr_name = "brightness" ∧ isNumeric attr_value = true then
      some (.int (roundHalfEven (toRat attr_value / 255 * 100)))
    else if isEnumDecimalInt attr_value = true then
      some (.str (pyStr attr_value))
    else
      some attr_value
  else none

/-- Python dictionary update d[k] = v on a key-value list: replace the
binding in place when the key is present, else append it. -/
def dictInsert (m : List (String × α)) (k : String) (v : α) : List (String × α) :=
  match m with
  | [] => [(k, v)]
  | p :: rest => if p.1 = k then (k, v) :: rest else p :: dictInsert rest k v

/-- Python dictionary lookup d.get(k) on a key-value list. -/
def dictGet (m : List (String × α)) (k : String) : Option α :=
  match m with
  | [] => none
  | p :: rest => if p.1 = k then some p.2 else dictGet rest k

/-- The attribute loop itself, folding filterAttr over the attribute
dictionary into the fresh attributes dictionary. -/
def buildAttrsAux (acc : List (String × AttrValue)) :
    List (String × AttrValue) → List (String × AttrValue)
  | [] => acc
  | (n, v) :: rest =>
    match filterAttr n v with
    | some w => buildAttrsAux (dictInsert acc n w) rest
    | none => buildAttrsAux acc rest

/-- The output attributes dictionary of one entity. -/
def buildAttributes (attrs : List (String × AttrValue)) : List (String × AttrValue) :=
  buildAttrsAux [] attrs

/-- Python truthiness-guarded registry lookup: the pattern
id and (rec := registry.get(id)) succeeds only when the identifier is
present, non-empty, and the lookup finds a record. -/
def resolveId (reg : String → Option α) : Option String → Option α
  | none => none
  | some id => if id = "" then none else reg id

/-- Area-name computation for an entity that has a registry entry,
mirroring lines 100-114 of the source: the direct area of the entry
first; otherwise one hop to the owning device and its area; the empty
list when neither resolves. -/
def areaNames (areaReg : String → Option Area) (deviceReg : String → Option Device)
    (entry : EntityEntry) : List String :=
  match resolveId areaReg entry.area_id with
  | some area => area.name :: area.aliases
  | none =>
    match resolveId deviceReg entry.device_id with
    | some device =>
      match resolveId areaReg device.area_id with
      | some area => area.name :: area.aliases
      | none => []
    | none => []

/-- Display-name list of one entity: its own name, then the aliases of
its registry entry when one exists. -/
def entityNames (entityReg : String → Option EntityEntry) (st : EntityState) :
    List String :=
  st.name :: (match entityReg st.entity_id with
              | some e => e.aliases
              | none => [])

/-- Area-name list of one entity: empty when it has no registry entry. -/
def entityAreaNames (entityReg : String → Option EntityEntry)
    (areaReg : String → Option Area) (deviceReg : String → Option Device)
    (st : EntityState) : List String :=
  match entityReg st.entity_id with
  | some e => areaNames areaReg deviceReg e
  | none => []

/-- Output record for one exposed entity. -/
structure ExposedEntityInfo where
  names : String
  domain : String
  state : String
  description : Option String
  areas : Option String
  attributes : Option (List (String × AttrValue))
deriving DecidableEq

/-- Assembly of the info record of one exposed entity, mirroring lines
93-140 of the source.  description is never set by this code; areas is
present only when the area-name list is non-empty; attributes only when
at least one attribute survived filtering. -/
def buildInfo (entityReg : String → Option EntityEntry)
    (areaReg : String → Option Area) (deviceReg : String → Option Device)
    (st : EntityState) : ExposedEntityInfo :=
  let names := entityNames entityReg st
  let area_names := entityAreaNames entityReg areaReg deviceReg st
  let attrs := buildAttributes st.attributes
  { names := String.intercalate ", " names
    domain := st.domain
    state := st.state
    description := none
    areas := if area_names = [] then none else some (String.intercalate ", " area_names)
    attributes := if attrs = [] then none else some attrs }

/-- The returned document: the "script" bucket, the "calendar" bucket,
and the catch-all mapping stored under the reserved key "entities". -/
structure ExposureReport where
  script : List (String × ExposedEntityInfo)
  calendar : List (String × ExposedEntityInfo)
  entities : List (String × ExposedEntityInfo)
deriving DecidableEq

/-- The report before any entity is processed. -/
def emptyReport : ExposureReport := ⟨[], [], []⟩

/-- One iteration of the main loop: skip the entity unless the exposure
predicate accepts it, build its info record, and route it by domain. -/
def insertState (entityReg : String → Option EntityEntry)
    (areaReg : String → Option Area) (deviceReg : String → Option Device)
    (assistant : String) (shouldExpose : String → String → Bool)
    (rep : ExposureReport) (st : EntityState) : ExposureReport :=
  if shouldExpose assistant st.entity_id then
    let info := buildInfo entityReg areaReg deviceReg st
    if st.domain = "script" then
      { rep with script := dictInsert rep.script st.entity_id info }
    else if st.domain = "calendar" then
      { rep with calendar := dictInsert rep.calendar st.entity_id info }
    else
      { rep with entities := dictInsert rep.entities st.entity_id info }
  else rep

/-- The main loop over the state snapshot, in input order. -/
def buildReportAux (entityReg : String → Option EntityEntry)
    (areaReg : String → Option Area) (deviceReg : String → Option Device)
    (assistant : String) (shouldExpose : String → String → Bool)
    (rep : ExposureReport) : List EntityState → ExposureReport
  | [] => rep
  | st :: rest =>
    buildReportAux entityReg areaReg deviceReg assistant shouldExpose
      (insertState entityReg areaReg deviceReg assistant shouldExpose rep st) rest

/-- The whole filter _custom_get_exposed_entities: the state snapshot,
the assistant context, the three registries and the exposure predicate
in, the ExposureReport out. -/
def buildExposureReport (states : List EntityState) (assistant : String)
    (entityReg : String → Option EntityEntry) (areaReg : String → Option Area)
    (deviceReg : String → Option Device)
    (shouldExpose : String → String → Bool) : ExposureReport :=
  buildReportAux entityReg areaReg deviceReg assistant shouldExpose emptyReport states

/-- Key-presence predicate on a key-value list. -/
def hasKey (m : List (String × α)) (k : String) : Prop := dictGet m k ≠ none

/-- Sample registry entry with two aliases, used to instantiate theorems. -/
def lampEntry : EntityEntry := ⟨["Lamp A", "Bedroom Lamp"], none, none⟩

/-- Sample light entity, display name Light 1, with a brightness and a
friendly_name attribute. -/
def lampState : EntityState :=
  ⟨"light.one", "light", "Light 1", "on",
   [("brightness", .int 128), ("friendly_name", .str "Light 1")]⟩

/-- Sample script entity. -/
def scriptState : EntityState := ⟨"script.morning", "script", "Morning", "off", []⟩

/-- Sample calendar entity. -/
def calendarState : EntityState := ⟨"calendar.home", "calendar", "Home", "on", []⟩

/-- Entity registry that knows only light.one. -/
def lampER : String → Option EntityEntry :=
  fun id => if id = "light.one" then some lampEntry else none

/-- Empty entity registry. -/
def noER : String → Option EntityEntry := fun _ => none

/-- Empty area registry. -/
def noAR : String → Option Area := fun _ => none

/-- Empty device registry. -/
def noDR : String → Option Device := fun _ => none

/-- Sample area with an alias. -/
def bedroomArea : Area := ⟨"Bedroom", ["Sleeping Room"]⟩

/-- Second sample area, the one the device sits in. -/
def kitchenArea : Area := ⟨"Kitchen", []⟩

/-- Registry entry that has both a direct area and a device. -/
def areaEntry : EntityEntry := ⟨[], some "area1", some "dev1"⟩

/-- Area registry holding the two sample areas. -/
def twoAR : String → Option Area :=
  fun id =>
    if id = "area1" then some bedroomArea
    else if id = "area2" then some kitchenArea
    else none

/-- Device registry: dev1 sits in area2 (a different area than area1). -/
def devDR : String → Option Device :=
  fun id => if id = "dev1" then some (⟨some "area2"⟩ : Device) else none

/-- Entity registry that knows only light.two, with areaEntry. -/
def areaER : String → Option EntityEntry :=
  fun id => if id = "light.two" then some areaEntry else none

/-- Second sample light entity. -/
def lampTwoState : EntityState := ⟨"light.two", "light", "Light 2", "on", []⟩

attribute [local semireducible] Rat.add Rat.sub Rat.mul Rat.inv

/-- Lookup after a dictionary update: the updated key reads the new
value, every other key is unchanged. -/
theorem dictGet_insert {α : Type} (m : List (String × α)) (k k2 : String) (v : α) :
    dictGet (dictInsert m k v) k2 = if k2 = k then some v else dictGet m k2 := by
  induction m with
  | nil =>
    simp only [dictInsert, dictGet]
    rcases eq_or_ne k2 k with h | h
    · subst h; simp
    · rw [if_neg (Ne.symm h), if_neg h]
  | cons p rest ih =>
    simp only [dictInsert]
    by_cases hpk : p.1 = k
    · simp only [if_pos hpk, dictGet]
      rcases eq_or_ne k2 k with h | h
      · subst h; simp
      · rw [if_neg (Ne.symm h), if_neg h, if_neg (fun h2 : p.1 = k2 => h (h2.symm.trans hpk))]
    · simp only [if_neg hpk, dictGet, ih]
      rcases eq_or_ne k2 k with h | h
      · subst h
        rw [if_neg (fun h2 : p.1 = k2 => hpk h2), if_pos rfl, if_pos rfl]
      · rw [if_neg h, if_neg h]

/-- Key presence after a dictionary update. -/
theorem hasKey_insert {α : Type} (m : List (String × α)) (k k2 : String) (v : α) :
    hasKey (dictInsert m k v) k2 ↔ k2 = k ∨ hasKey m k2 := by
  unfold hasKey
  rw [dictGet_insert]
  split_ifs with h <;> simp [h]

/-- A dictionary update never empties the dictionary. -/
theorem dictInsert_ne_nil {α : Type} (m : List (String × α)) (k : String) (v : α) :
    dictInsert m k v ≠ [] := by
  cases m with
  | nil => simp [dictInsert]
  | cons p rest =>
    simp only [dictInsert]
    split_ifs <;> simp

/-- An attribute survives filtering only if its name is on the allow-list. -/
theorem filterAttr_interesting {n : String} {v : AttrValue}
    (h : filterAttr n v ≠ none) : n ∈ interesting_attributes := by
  by_contra hn
  exact h (by simp [filterAttr, hn])

/-- Reduction of filterAttr when the numeric-brightness branch is not
taken. -/
theorem filterAttr_not_numeric_brightness (attr_name : String) (v : AttrValue)
    (h : attr_name ∈ interesting_attributes)
    (hnb : ¬(attr_name = "brightness" ∧ isNumeric v = true)) :
    filterAttr attr_name v =
      if isEnumDecimalInt v = true then some (.str (pyStr v)) else some v := by
  unfold filterAttr
  rw [if_pos h, if_neg hnb]

/-- areaNames when the direct area resolves: the device registry is
never consulted. -/
theorem areaNames_direct (ar : String → Option Area) (dr : String → Option Device)
    (e : EntityEntry) (area : Area) (ha : resolveId ar e.area_id = some area) :
    areaNames ar dr e = area.name :: area.aliases := by
  unfold areaNames
  rw [ha]

/-- areaNames when the direct area does not resolve but the device area
does. -/
theorem areaNames_device (ar : String → Option Area) (dr : String → Option Device)
    (e : EntityEntry) (device : Device) (area : Area)
    (hnone : resolveId ar e.area_id = none)
    (hdev : resolveId dr e.device_id = some device)
    (ha : resolveId ar device.area_id = some area) :
    areaNames ar dr e = area.name :: area.aliases := by
  unfold areaNames
  simp only [hnone, hdev, ha]

/-- areaNames when neither the direct area nor a device area resolves. -/
theorem areaNames_none (ar : String → Option Area) (dr : String → Option Device)
    (e : EntityEntry) (hnone : resolveId ar e.area_id = none)
    (hdevs : ∀ device, resolveId dr e.device_id = some device →
       resolveId ar device.area_id = none) :
    areaNames ar dr e = [] := by
  unfold areaNames
  cases hdev : resolveId dr e.device_id with
  | none => simp only [hnone, hdev]
  | some device => simp only [hnone, hdev, hdevs device hdev]

/-- The attribute loop writes nothing under a name outside the allow-list. -/
theorem buildAttrsAux_get_not_interesting (attrs : List (String × AttrValue))
    (acc : List (String × AttrValue)) (n : String) (hn : n ∉ interesting_attributes) :
    dictGet (buildAttrsAux acc attrs) n = dictGet acc n := by
  induction attrs generalizing acc with
  | nil => rfl
  | cons p rest ih =>
    obtain ⟨pn, pv⟩ := p
    simp only [buildAttrsAux]
    cases hf : filterAttr pn pv with
    | none => exact ih acc
    | some w =>
      rw [ih (dictInsert acc pn w), dictGet_insert]
      have hpn : pn ∈ interesting_attributes := filterAttr_interesting (hf ▸ Option.some_ne_none w)
      rw [if_neg (fun he : n = pn => hn (he ▸ hpn))]

/-- The attribute loop leaves keys that do not occur in the input alone. -/
theorem buildAttrsAux_get_skip (attrs : List (String × AttrValue))
    (acc : List (String × AttrValue)) (n : String) (hn : n ∉ attrs.map Prod.fst) :
    dictGet (buildAttrsAux acc attrs) n = dictGet acc n := by
  induction attrs generalizing acc with
  | nil => rfl
  | cons p rest ih =>
    obtain ⟨pn, pv⟩ := p
    have hn2 : n ∉ rest.map Prod.fst := fun h => hn (by simp [h])
    have hne : n ≠ pn := fun h => hn (by simp [h])
    simp only [buildAttrsAux]
    cases hf : filterAttr pn pv with
    | none => exact ih acc hn2
    | some w => rw [ih (dictInsert acc pn w) hn2, dictGet_insert, if_neg hne]

/-- On an attribute dictionary with distinct names, the loop output under
name k is exactly what filterAttr makes of the value stored at k. -/
theorem buildAttrsAux_get_mem (attrs : List (String × AttrValue))
    (acc : List (String × AttrValue)) (k : String) (v : AttrValue)
    (hnd : (attrs.map Prod.fst).Nodup) (hmem : (k, v) ∈ attrs) :
    dictGet (buildAttrsAux acc attrs) k =
      match filterAttr k v with
      | some w => some w
      | none => dictGet acc k := by
  induction attrs generalizing acc with
  | nil => cases hmem
  | cons p rest ih =>
    obtain ⟨pn, pv⟩ := p
    have hnd2 : (rest.map Prod.fst).Nodup := (List.nodup_cons.mp hnd).2
    have hpn : pn ∉ rest.map Prod.fst := (List.nodup_cons.mp hnd).1
    rcases List.mem_cons.mp hmem with heq | hmem2
    · obtain ⟨hk, hv⟩ := Prod.mk.injEq .. ▸ heq
      subst hk; subst hv
      simp only [buildAttrsAux]
      cases hf : filterAttr k v with
      | none => rw [buildAttrsAux_get_skip rest acc k hpn]
      | some w =>
        rw [buildAttrsAux_get_skip rest (dictInsert acc k w) k hpn, dictGet_insert, if_pos rfl]
    · have hkr : k ∈ rest.map Prod.fst := by
        exact List.mem_map.mpr ⟨(k, v), hmem2, rfl⟩
      have hne : k ≠ pn := fun h => hpn (h ▸ hkr)
      simp only [buildAttrsAux]
      cases hf : filterAttr pn pv with
      | none => exact ih acc hnd2 hmem2
      | some w =>
        rw [ih (dictInsert acc pn w) hnd2 hmem2]
        cases filterAttr k v with
        | some w2 => rfl
        | none => simp only [dictGet_insert, if_neg hne]

/-- The attribute loop produces the empty dictionary exactly when it
started empty and every input attribute was dropped. -/
theorem buildAttrsAux_eq_nil_iff (attrs : List (String × AttrValue))
    (acc : List (String × AttrValue)) :
    buildAttrsAux acc attrs = [] ↔ acc = [] ∧ ∀ p ∈ attrs, filterAttr p.1 p.2 = none := by
  induction attrs generalizing acc with
  | nil => simp [buildAttrsAux]
  | cons p rest ih =>
    obtain ⟨pn, pv⟩ := p
    simp only [buildAttrsAux]
    cases hf : filterAttr pn pv with
    | none =>
      rw [ih]
      simp [List.forall_mem_cons, hf]
    | some w =>
      rw [ih]
      simp only [List.forall_mem_cons]
      constructor
      · rintro ⟨hne, -⟩
        exact absurd hne (dictInsert_ne_nil acc pn w)
      · rintro ⟨-, hhead, -⟩
        exact absurd (hf.symm.trans hhead) (Option.some_ne_none w)

/-- Key presence in the script bucket after one loop iteration. -/
theorem insertState_script_hasKey (er : String → Option EntityEntry)
    (ar : String → Option Area) (dr : String → Option Device) (a : String)
    (p : String → String → Bool) (rep : ExposureReport) (st : EntityState) (id : String) :
    hasKey (insertState er ar dr a p rep st).script id ↔
      hasKey rep.script id ∨
        (st.entity_id = id ∧ p a st.entity_id = true ∧ st.domain = "script") := by
  unfold insertState
  split_ifs with hp hs hc
  · rw [hasKey_insert]
    constructor
    · rintro (h | h)
      · exact Or.inr ⟨h.symm, hp, hs⟩
      · exact Or.inl h
    · rintro (h | ⟨h1, -, -⟩)
      · exact Or.inr h
      · exact Or.inl h1.symm
  · simp [hs]
  · simp [hs]
  · simp [hp]

/-- Key presence in the calendar bucket after one loop iteration. -/
theorem insertState_calendar_hasKey (er : String → Option EntityEntry)
    (ar : String → Option Area) (dr : String → Option Device) (a : String)
    (p : String → String → Bool) (rep : ExposureReport) (st : EntityState) (id : String) :
    hasKey (insertState er ar dr a p rep st).calendar id ↔
      hasKey rep.calendar id ∨
        (st.entity_id = id ∧ p a st.entity_id = true ∧ st.domain = "calendar") := by
  unfold insertState
  split_ifs with hp hs hc
  · simp [hs]
  · rw [hasKey_insert]
    constructor
    · rintro (h | h)
      · exact Or.inr ⟨h.symm, hp, hc⟩
      · exact Or.inl h
    · rintro (h | ⟨h1, -, -⟩)
      · exact Or.inr h
      · exact Or.inl h1.symm
  · simp [hc]
  · simp [hp]

/-- Key presence in the catch-all mapping after one loop iteration. -/
theorem insertState_entities_hasKey (er : String → Option EntityEntry)
    (ar : String → Option Area) (dr : String → Option Device) (a : String)
    (p : String → String → Bool) (rep : ExposureReport) (st : EntityState) (id : String) :
    hasKey (insertState er ar dr a p rep st).entities id ↔
      hasKey rep.entities id ∨
        (st.entity_id = id ∧ p a st.entity_id = true ∧
          st.domain ≠ "script" ∧ st.domain ≠ "calendar") := by
  unfold insertState
  split_ifs with hp hs hc
  · simp [hs]
  · simp [hc]
  · rw [hasKey_insert]
    constructor
    · rintro (h | h)
      · exact Or.inr ⟨h.symm, hp, hs, hc⟩
      · exact Or.inl h
    · rintro (h | ⟨h1, -, -⟩)
      · exact Or.inr h
      · exact Or.inl h1.symm
  · simp [hp]

/-- Key presence in the script bucket after the whole loop. -/
theorem reportAux_script_hasKey (er : String → Option EntityEntry)
    (ar : String → Option Area) (dr : String → Option Device) (a : String)
    (p : String → String → Bool) (states : List EntityState) (rep : ExposureReport)
    (id : String) :
    hasKey (buildReportAux er ar dr a p rep states).script id ↔
      hasKey rep.script id ∨
        ∃ st ∈ states, st.entity_id = id ∧ p a st.entity_id = true ∧
          st.domain = "script" := by
  induction states generalizing rep with
  | nil => simp [buildReportAux]
  | cons st rest ih =>
    simp only [buildReportAux]
    rw [ih, insertState_script_hasKey]
    simp only [List.mem_cons]
    constructor
    · rintro ((h | h) | ⟨st2, h2, h3⟩)
      · exact Or.inl h
      · exact Or.inr ⟨st, Or.inl rfl, h⟩
      · exact Or.inr ⟨st2, Or.inr h2, h3⟩
    · rintro (h | ⟨st2, (rfl | h2), h3⟩)
      · exact Or.inl (Or.inl h)
      · exact Or.inl (Or.inr h3)
      · exact Or.inr ⟨st2, h2, h3⟩

/-- Key presence in the calendar bucket after the whole loop. -/
theorem reportAux_calendar_hasKey (er : String → Option EntityEntry)
    (ar : String → Option Area) (dr : String → Option Device) (a : String)
    (p : String → String → Bool) (states : List EntityState) (rep : ExposureReport)
    (id : String) :
    hasKey (buildReportAux er ar dr a p rep states).calendar id ↔
      hasKey rep.calendar id ∨
        ∃ st ∈ states, st.entity_id = id ∧ p a st.entity_id = true ∧
          st.domain = "calendar" := by
  induction states generalizing rep with
  | nil => simp [buildReportAux]
  | cons st rest ih =>
    simp only [buildReportAux]
    rw [ih, insertState_calendar_hasKey]
    simp only [List.mem_cons]
    constructor
    · rintro ((h | h) | ⟨st2, h2, h3⟩)
      · exact Or.inl h
      · exact Or.inr ⟨st, Or.inl rfl, h⟩
      · exact Or.inr ⟨st2, Or.inr h2, h3⟩
    · rintro (h | ⟨st2, (rfl | h2), h3⟩)
      · exact Or.inl (Or.inl h)
      · exact Or.inl (Or.inr h3)
      · exact Or.inr ⟨st2, h2, h3⟩

/-- Key presence in the catch-all mapping after the whole loop. -/
theorem reportAux_entities_hasKey (er : String → Option EntityEntry)
    (ar : String → Option Area) (dr : String → Option Device) (a : String)
    (p : String → String → Bool) (states : List EntityState) (rep : ExposureReport)
    (id : String) :
    hasKey (buildReportAux er ar dr a p rep states).entities id ↔
      hasKey rep.entities id ∨
        ∃ st ∈ states, st.entity_id = id ∧ p a st.entity_id = true ∧
          st.domain ≠ "script" ∧ st.domain ≠ "calendar" := by
  induction states generalizing rep with
  | nil => simp [buildReportAux]
  | cons st rest ih =>
    simp only [buildReportAux]
    rw [ih, insertState_entities_hasKey]
    simp only [List.mem_cons]
    constructor
    · rintro ((h | h) | ⟨st2, h2, h3⟩)
      · exact Or.inl h
      · exact Or.inr ⟨st, Or.inl rfl, h⟩
      · exact Or.inr ⟨st2, Or.inr h2, h3⟩
    · rintro (h | ⟨st2, (rfl | h2), h3⟩)
      · exact Or.inl (Or.inl h)
      · exact Or.inl (Or.inr h3)
      · exact Or.inr ⟨st2, h2, h3⟩

/-- C1: for every entity for which the exposure predicate returns false
for the given assistant context, its identifier appears nowhere in the
returned report: not in the script bucket, not in the calendar bucket,
not in the catch-all mapping. -/
theorem C1_unexposed_entity_absent (states : List EntityState) (assistant : String)
    (er : String → Option EntityEntry) (ar : String → Option Area)
    (dr : String → Option Device) (p : String → String → Bool) (id : String)
    (h : p assistant id = false) :
    ¬ hasKey (buildExposureReport states assistant er ar dr p).script id ∧
    ¬ hasKey (buildExposureReport states assistant er ar dr p).calendar id ∧
    ¬ hasKey (buildExposureReport states assistant er ar dr p).entities id := by
  unfold buildExposureReport
  refine ⟨?_, ?_, ?_⟩
  · rw [reportAux_script_hasKey]
    rintro (habs | ⟨st, -, heq, hexp, -⟩)
    · exact habs rfl
    · rw [heq, h] at hexp
      cases hexp
  · rw [reportAux_calendar_hasKey]
    rintro (habs | ⟨st, -, heq, hexp, -⟩)
    · exact habs rfl
    · rw [heq, h] at hexp
      cases hexp
  · rw [reportAux_entities_hasKey]
    rintro (habs | ⟨st, -, heq, hexp, -, -⟩)
    · exact habs rfl
    · rw [heq, h] at hexp
      cases hexp

/-- Witness for C1 at a concrete snapshot and an always-false predicate. -/
theorem C1_witness :
    ¬ hasKey (buildExposureReport [lampState, scriptState] "assist" lampER noAR noDR
        (fun _ _ => false)).script "light.one" ∧
    ¬ hasKey (buildExposureReport [lampState, scriptState] "assist" lampER noAR noDR
        (fun _ _ => false)).calendar "light.one" ∧
    ¬ hasKey (buildExposureReport [lampState, scriptState] "assist" lampER noAR noDR
        (fun _ _ => false)).entities "light.one" :=
  C1_unexposed_entity_absent [lampState, scriptState] "assist" lampER noAR noDR
    (fun _ _ => false) "light.one" rfl

/-- C2: on a snapshot with distinct identifiers, every entity accepted by
the exposure predicate appears in the script bucket exactly when its
domain is script, in the calendar bucket exactly when its domain is
calendar, and in the catch-all mapping exactly otherwise, hence in
exactly one of the three. -/
theorem C2_exactly_one_bucket (states : List EntityState) (assistant : String)
    (er : String → Option EntityEntry) (ar : String → Option Area)
    (dr : String → Option Device) (p : String → String → Bool) (st : EntityState)
    (hnd : (states.map EntityState.entity_id).Nodup)
    (hmem : st ∈ states) (hexp : p assistant st.entity_id = true) :
    (hasKey (buildExposureReport states assistant er ar dr p).script st.entity_id ↔
      st.domain = "script") ∧
    (hasKey (buildExposureReport states assistant er ar dr p).calendar st.entity_id ↔
      st.domain = "calendar") ∧
    (hasKey (buildExposureReport states assistant er ar dr p).entities st.entity_id ↔
      (st.domain ≠ "script" ∧ st.domain ≠ "calendar")) := by
  have hinj := List.inj_on_of_nodup_map hnd
  unfold buildExposureReport
  refine ⟨?_, ?_, ?_⟩
  · rw [reportAux_script_hasKey]
    constructor
    · rintro (habs | ⟨st2, hmem2, heq, -, hdom⟩)
      · exact absurd rfl habs
      · exact (hinj hmem2 hmem heq) ▸ hdom
    · intro hdom
      exact Or.inr ⟨st, hmem, rfl, hexp, hdom⟩
  · rw [reportAux_calendar_hasKey]
    constructor
    · rintro (habs | ⟨st2, hmem2, heq, -, hdom⟩)
      · exact absurd rfl habs
      · exact (hinj hmem2 hmem heq) ▸ hdom
    · intro hdom
      exact Or.inr ⟨st, hmem, rfl, hexp, hdom⟩
  · rw [reportAux_entities_hasKey]
    constructor
    · rintro (habs | ⟨st2, hmem2, heq, -, hdom⟩)
      · exact absurd rfl habs
      · exact (hinj hmem2 hmem heq) ▸ hdom
    · intro hdom
      exact Or.inr ⟨st, hmem, rfl, hexp, hdom⟩

/-- Witness for C2 on a three-entity snapshot, applied to the script
entity. -/
theorem C2_witness :
    (hasKey (buildExposureReport [lampState, scriptState, calendarState] "assist"
        lampER noAR noDR (fun _ _ => true)).script scriptState.entity_id ↔
      scriptState.domain = "script") ∧
    (hasKey (buildExposureReport [lampState, scriptState, calendarState] "assist"
        lampER noAR noDR (fun _ _ => true)).calendar scriptState.entity_id ↔
      scriptState.domain = "calendar") ∧
    (hasKey (buildExposureReport [lampState, scriptState, calendarState] "assist"
        lampER noAR noDR (fun _ _ => true)).entities scriptState.entity_id ↔
      (scriptState.domain ≠ "script" ∧ scriptState.domain ≠ "calendar")) :=
  C2_exactly_one_bucket [lampState, scriptState, calendarState] "assist"
    lampER noAR noDR (fun _ _ => true) scriptState (by decide) (by decide) rfl

/-- C3: every entity carrying a brightness attribute with a numeric value
v gets brightness bound to round(v / 255 * 100) under round-half-to-even
in its output attributes; at the reference points, 255 maps to 100, 0 to
0 and 128 to 50. -/
theorem C3_brightness_rescaled (er : String → Option EntityEntry)
    (ar : String → Option Area) (dr : String → Option Device)
    (st : EntityState) (v : AttrValue)
    (hnd : (st.attributes.map Prod.fst).Nodup)
    (hmem : ("brightness", v) ∈ st.attributes)
    (hnum : isNumeric v = true) :
    (∃ m, (buildInfo er ar dr st).attributes = some m ∧
       dictGet m "brightness" =
         some (.int (roundHalfEven (toRat v / 255 * 100)))) ∧
    roundHalfEven ((255 : ℚ) / 255 * 100) = 100 ∧
    roundHalfEven ((0 : ℚ) / 255 * 100) = 0 ∧
    roundHalfEven ((128 : ℚ) / 255 * 100) = 50 := by
  refine ⟨?_, by decide, by decide, by decide⟩
  have hf : filterAttr "brightness" v =
      some (.int (roundHalfEven (toRat v / 255 * 100))) := by
    unfold filterAttr
    rw [if_pos (show ("brightness" : String) ∈ interesting_attributes by decide),
      if_pos ⟨rfl, hnum⟩]
  have hget : dictGet (buildAttributes st.attributes) "brightness" =
      some (.int (roundHalfEven (toRat v / 255 * 100))) := by
    have h2 := buildAttrsAux_get_mem st.attributes [] "brightness" v hnd hmem
    rw [hf] at h2
    exact h2
  have hne : buildAttributes st.attributes ≠ [] := by
    intro h0
    rw [h0] at hget
    cases hget
  refine ⟨buildAttributes st.attributes, ?_, hget⟩
  simp only [buildInfo]
  rw [if_neg hne]

/-- Witness for C3 on the sample lamp whose brightness is the int 128. -/
theorem C3_witness :
    (∃ m, (buildInfo noER noAR noDR lampState).attributes = some m ∧
       dictGet m "brightness" =
         some (.int (roundHalfEven (toRat (.int 128) / 255 * 100)))) ∧
    roundHalfEven ((255 : ℚ) / 255 * 100) = 100 ∧
    roundHalfEven ((0 : ℚ) / 255 * 100) = 0 ∧
    roundHalfEven ((128 : ℚ) / 255 * 100) = 50 :=
  C3_brightness_rescaled noER noAR noDR lampState (.int 128)
    (by decide) (by decide) rfl

/-- C4 fails on the code at a boolean value: a Python bool is an int, so
a boolean device_class is stringified by the Enum / Decimal / int branch
instead of being copied unchanged as the claim states. -/
theorem C4_counterexample :
    filterAttr "device_class" (AttrValue.bool true) = some (AttrValue.str "True") ∧
    filterAttr "device_class" (AttrValue.bool true) ≠ some (AttrValue.bool true) := by
  exact ⟨by decide, by decide⟩

/-- C4 (amended): for every allowed attribute other than a numeric
brightness, Enum, Decimal, int and bool values (a Python bool is an int)
are stored as their canonical string rendering, True or False for bools,
while plain strings and floats are copied unchanged; a brightness whose
value is not numeric follows the same rule. -/
theorem C4_stringify_or_copy (attr_name : String)
    (h : attr_name ∈ interesting_attributes) (hnb : attr_name ≠ "brightness") :
    (∀ s, filterAttr attr_name (.enum s) = some (.str s)) ∧
    (∀ s, filterAttr attr_name (.decimal s) = some (.str s)) ∧
    (∀ n : Int, filterAttr attr_name (.int n) = some (.str (toString n))) ∧
    (∀ b : Bool, filterAttr attr_name (.bool b) =
       some (.str (if b then "True" else "False"))) ∧
    (∀ s, filterAttr attr_name (.str s) = some (.str s)) ∧
    (∀ q : ℚ, filterAttr attr_name (.float q) = some (.float q)) ∧
    (∀ s, filterAttr "brightness" (.str s) = some (.str s)) ∧
    (∀ s, filterAttr "brightness" (.enum s) = some (.str s)) ∧
    (∀ s, filterAttr "brightness" (.decimal s) = some (.str s)) := by
  have hbr : ("brightness" : String) ∈ interesting_attributes := by decide
  refine ⟨?_, ?_, ?_, ?_, ?_, ?_, ?_, ?_, ?_⟩ <;> intro x
  · rw [filterAttr_not_numeric_brightness attr_name (.enum x) h (fun hc => hnb hc.1)]
    rfl
  · rw [filterAttr_not_numeric_brightness attr_name (.decimal x) h (fun hc => hnb hc.1)]
    rfl
  · rw [filterAttr_not_numeric_brightness attr_name (.int x) h (fun hc => hnb hc.1)]
    rfl
  · rw [filterAttr_not_numeric_brightness attr_name (.bool x) h (fun hc => hnb hc.1)]
    rfl
  · rw [filterAttr_not_numeric_brightness attr_name (.str x) h (fun hc => hnb hc.1)]
    rfl
  · rw [filterAttr_not_numeric_brightness attr_name (.float x) h (fun hc => hnb hc.1)]
    rfl
  · rw [filterAttr_not_numeric_brightness "brightness" (.str x) hbr
      (fun hc => Bool.false_ne_true hc.2)]
    rfl
  · rw [filterAttr_not_numeric_brightness "brightness" (.enum x) hbr
      (fun hc => Bool.false_ne_true hc.2)]
    rfl
  · rw [filterAttr_not_numeric_brightness "brightness" (.decimal x) hbr
      (fun hc => Bool.false_ne_true hc.2)]
    rfl

/-- Witness for C4 (amended) at the device_class attribute. -/
theorem C4_witness :
    filterAttr "device_class" (AttrValue.enum "motion") =
      some (AttrValue.str "motion") :=
  (C4_stringify_or_copy "device_class" (by decide) (by decide)).1 "motion"

/-- C5: the names field is the comma-join of the display name followed by
the registry aliases in stored order; an entity with no registry entry
gets exactly its own display name and no areas field; the sample lamp
with display name Light 1 and aliases Lamp A and Bedroom Lamp yields the
string Light 1, Lamp A, Bedroom Lamp. -/
theorem C5_names_field (er : String → Option EntityEntry)
    (ar : String → Option Area) (dr : String → Option Device) (st : EntityState) :
    (∀ e, er st.entity_id = some e →
       (buildInfo er ar dr st).names =
         String.intercalate ", " (st.name :: e.aliases)) ∧
    (er st.entity_id = none →
       (buildInfo er ar dr st).names = st.name ∧
       (buildInfo er ar dr st).areas = none) ∧
    (buildInfo lampER noAR noDR lampState).names = "Light 1, Lamp A, Bedroom Lamp" := by
  refine ⟨?_, ?_, by decide⟩
  · intro e he
    simp only [buildInfo, entityNames]
    rw [he]
  · intro he
    constructor
    · simp only [buildInfo, entityNames]
      rw [he]
      rfl
    · simp only [buildInfo, entityAreaNames]
      rw [he]
      rfl

/-- Witness for C5 on the sample lamp and its registry entry. -/
theorem C5_witness :
    (buildInfo lampER noAR noDR lampState).names =
      String.intercalate ", " (lampState.name :: lampEntry.aliases) :=
  (C5_names_field lampER noAR noDR lampState).1 lampEntry (by decide)

/-- C6: for an entity with a registry entry, a resolving direct area
fixes the areas field to that area name plus aliases whatever the device
registry says; otherwise a device whose area resolves is used; when
neither resolves the areas field is omitted. -/
theorem C6_area_precedence (er : String → Option EntityEntry)
    (ar : String → Option Area) (dr : String → Option Device)
    (st : EntityState) (e : EntityEntry)
    (he : er st.entity_id = some e) :
    (∀ area, resolveId ar e.area_id = some area →
       (buildInfo er ar dr st).areas =
         some (String.intercalate ", " (area.name :: area.aliases))) ∧
    (resolveId ar e.area_id = none →
       ∀ device, resolveId dr e.device_id = some device →
       ∀ area, resolveId ar device.area_id = some area →
       (buildInfo er ar dr st).areas =
         some (String.intercalate ", " (area.name :: area.aliases))) ∧
    (resolveId ar e.area_id = none →
     (∀ device, resolveId dr e.device_id = some device →
        resolveId ar device.area_id = none) →
       (buildInfo er ar dr st).areas = none) := by
  have hea : entityAreaNames er ar dr st = areaNames ar dr e := by
    unfold entityAreaNames
    rw [he]
  refine ⟨?_, ?_, ?_⟩
  · intro area ha
    simp only [buildInfo]
    rw [hea, areaNames_direct ar dr e area ha,
      if_neg (List.cons_ne_nil area.name area.aliases)]
  · intro hnone device hdev area ha
    simp only [buildInfo]
    rw [hea, areaNames_device ar dr e device area hnone hdev ha,
      if_neg (List.cons_ne_nil area.name area.aliases)]
  · intro hnone hdevs
    simp only [buildInfo]
    rw [hea, areaNames_none ar dr e hnone hdevs]
    rfl

/-- Witness for C6: light.two has direct area area1 (Bedroom) while its
device dev1 sits in area2 (Kitchen); the direct area wins. -/
theorem C6_witness :
    (buildInfo areaER twoAR devDR lampTwoState).areas =
      some (String.intercalate ", " (bedroomArea.name :: bedroomArea.aliases)) :=
  (C6_area_precedence areaER twoAR devDR lampTwoState areaEntry (by decide)).1
    bedroomArea (by decide)

/-- C7: an attribute whose name is outside the allow-list never appears
in the output attributes; the attributes field is present exactly when
some input attribute survived filtering; the areas field is present
exactly when the area-name list is non-empty. -/
theorem C7_allowlist_and_presence (er : String → Option EntityEntry)
    (ar : String → Option Area) (dr : String → Option Device)
    (st : EntityState) (attr_name : String)
    (hno : attr_name ∉ interesting_attributes) :
    (∀ m, (buildInfo er ar dr st).attributes = some m →
       dictGet m attr_name = none) ∧
    ((buildInfo er ar dr st).attributes ≠ none ↔
       ∃ pr ∈ st.attributes, filterAttr pr.1 pr.2 ≠ none) ∧
    ((buildInfo er ar dr st).areas ≠ none ↔
       entityAreaNames er ar dr st ≠ []) := by
  refine ⟨?_, ?_, ?_⟩
  · intro m hm
    simp only [buildInfo] at hm
    by_cases h0 : buildAttributes st.attributes = []
    · rw [if_pos h0] at hm
      cases hm
    · rw [if_neg h0] at hm
      cases hm
      unfold buildAttributes
      exact buildAttrsAux_get_not_interesting st.attributes [] attr_name hno
  · simp only [buildInfo]
    by_cases h0 : buildAttributes st.attributes = []
    · rw [if_pos h0]
      unfold buildAttributes at h0
      rw [buildAttrsAux_eq_nil_iff] at h0
      simp only [ne_eq, not_true_eq_false, false_iff, not_exists, not_and]
      intro pr hpr
      simp [h0.2 pr hpr]
    · rw [if_neg h0]
      unfold buildAttributes at h0
      simp only [ne_eq, reduceCtorEq, not_false_eq_true, true_iff]
      by_contra hall
      push_neg at hall
      exact h0 (by
        rw [buildAttrsAux_eq_nil_iff]
        exact ⟨rfl, fun pr hpr => hall pr hpr⟩)
  · simp only [buildInfo]
    by_cases h0 : entityAreaNames er ar dr st = []
    · rw [if_pos h0]
      simp [h0]
    · rw [if_neg h0]
      simp [h0]

/-- Witness for C7 at the friendly_name attribute of the sample lamp. -/
theorem C7_witness :
    (∀ m, (buildInfo lampER noAR noDR lampState).attributes = some m →
       dictGet m "friendly_name" = none) ∧
    ((buildInfo lampER noAR noDR lampState).attributes ≠ none ↔
       ∃ pr ∈ lampState.attributes, filterAttr pr.1 pr.2 ≠ none) ∧
    ((buildInfo lampER noAR noDR lampState).areas ≠ none ↔
       entityAreaNames lampER noAR noDR lampState ≠ []) :=
  C7_allowlist_and_presence lampER noAR noDR lampState "friendly_name" (by decide)

/-- C8: registry misses degrade instead of failing: with no registry
entry the record still comes out with just the display name and no areas
field; with an entry whose area and device lookups all miss, the areas
field is simply absent; and a malformed, non-numeric brightness value is
passed through unchanged rather than raising. -/
theorem C8_misses_degrade (er : String → Option EntityEntry)
    (ar : String → Option Area) (dr : String → Option Device) (st : EntityState) :
    (er st.entity_id = none →
       (buildInfo er ar dr st).names = st.name ∧
       (buildInfo er ar dr st).areas = none) ∧
    (∀ e, er st.entity_id = some e →
       (∀ aid, e.area_id = some aid → ar aid = none) →
       (∀ did, e.device_id = some did → dr did = none) →
       (buildInfo er ar dr st).areas = none) ∧
    (∀ s, filterAttr "brightness" (.str s) = some (.str s)) := by
  refine ⟨?_, ?_, ?_⟩
  · intro he
    constructor
    · simp only [buildInfo, entityNames]
      rw [he]
      rfl
    · simp only [buildInfo, entityAreaNames]
      rw [he]
      rfl
  · intro e he har hdr
    have hra : resolveId ar e.area_id = none := by
      cases haid : e.area_id with
      | none => rfl
      | some aid =>
        simp only [resolveId]
        split_ifs with h0
        · rfl
        · exact har aid haid
    have hrd : resolveId dr e.device_id = none := by
      cases hdid : e.device_id with
      | none => rfl
      | some did =>
        simp only [resolveId]
        split_ifs with h0
        · rfl
        · exact hdr did hdid
    have hea : entityAreaNames er ar dr st = areaNames ar dr e := by
      unfold entityAreaNames
      rw [he]
    simp only [buildInfo]
    rw [hea, areaNames_none ar dr e hra
      (fun device hdev => by rw [hrd] at hdev; cases hdev)]
    rfl
  · intro s
    rw [filterAttr_not_numeric_brightness "brightness" (.str s) (by decide)
      (fun hc => Bool.false_ne_true hc.2)]
    rfl

/-- Witness for C8 on the sample lamp with every registry empty. -/
theorem C8_witness :
    (buildInfo noER noAR noDR lampState).names = lampState.name ∧
    (buildInfo noER noAR noDR lampState).areas = none :=
  (C8_misses_degrade noER noAR noDR lampState).1 rfl

/-- C9: the filter is deterministic: calls on equal snapshots,
registries, assistant context and exposure predicate return equal
reports, with no hidden state. -/
theorem C9_deterministic (states1 states2 : List EntityState) (a1 a2 : String)
    (er1 er2 : String → Option EntityEntry) (ar1 ar2 : String → Option Area)
    (dr1 dr2 : String → Option Device) (p1 p2 : String → String → Bool)
    (hs : states1 = states2) (ha : a1 = a2) (her : er1 = er2) (har : ar1 = ar2)
    (hdr : dr1 = dr2) (hp : p1 = p2) :
    buildExposureReport states1 a1 er1 ar1 dr1 p1 =
      buildExposureReport states2 a2 er2 ar2 dr2 p2 := by
  rw [hs, ha, her, har, hdr, hp]

/-- Witness for C9 at a concrete one-entity call. -/
theorem C9_witness :
    buildExposureReport [lampState] "assist" lampER noAR noDR (fun _ _ => true) =
      buildExposureReport [lampState] "assist" lampER noAR noDR (fun _ _ => true) :=
  C9_deterministic [lampState] [lampState] "assist" "assist" lampER lampER
    noAR noAR noDR noDR (fun _ _ => true) (fun _ _ => true) rfl rfl rfl rfl rfl rfl

/-- C10: the brightness rescale branch fires exactly for int, float and
bool values (a Python bool is an int): True is rescaled to
round(1 / 255 * 100) = 0 and False to 0, a Decimal brightness is instead
stringified by the Enum / Decimal / int branch, an Enum brightness is
stringified too, and a string brightness is copied unchanged. -/
theorem C10_brightness_branch_numeric :
    filterAttr "brightness" (.bool true) = some (.int 0) ∧
    filterAttr "brightness" (.bool false) = some (.int 0) ∧
    roundHalfEven ((1 : ℚ) / 255 * 100) = 0 ∧
    (∀ n : Int, filterAttr "brightness" (.int n) =
       some (.int (roundHalfEven ((n : ℚ) / 255 * 100)))) ∧
    (∀ q : ℚ, filterAttr "brightness" (.float q) =
       some (.int (roundHalfEven (q / 255 * 100)))) ∧
    (∀ s, filterAttr "brightness" (.decimal s) = some (.str s)) ∧
    (∀ s, filterAttr "brightness" (.enum s) = some (.str s)) ∧
    (∀ s, filterAttr "brightness" (.str s) = some (.str s)) := by
  have hbr : ("brightness" : String) ∈ interesting_attributes := by decide
  refine ⟨by decide, by decide, by decide, ?_, ?_, ?_, ?_, ?_⟩ <;> intro x
  · unfold filterAttr
    rw [if_pos hbr, if_pos ⟨rfl, rfl⟩]
    rfl
  · unfold filterAttr
    rw [if_pos hbr, if_pos ⟨rfl, rfl⟩]
    rfl
  · rw [filterAttr_not_numeric_brightness "brightness" (.decimal x) hbr
      (fun hc => Bool.false_ne_true hc.2)]
    rfl
  · rw [filterAttr_not_numeric_brightness "brightness" (.enum x) hbr
      (fun hc => Bool.false_ne_true hc.2)]
    rfl
  · rw [filterAttr_not_numeric_brightness "brightness" (.str x) hbr
      (fun hc => Bool.false_ne_true hc.2)]
    rfl

end ExposureFilter
